import Mathlib

/-!
Shallow embedding of `scripts/validate-keys.py` (CFV Metrics Agent — API Key
Validator).  Pure control flow of the script is translated directly; the
external world (HTTP responses from the three services, the configuration
file's existence and lines, the `datetime` rendering of a reset timestamp)
is passed in as explicit data.  Statuses are the literal strings used by the
Python code.
-/

deriving instance DecidableEq for Except

namespace ValidateKeys

/-- A validation result dictionary, as built by each `validate_*` function:
`{'service': ..., 'status': ..., 'message': ..., 'details': {...}}`.
`details` is an insertion-ordered string-to-string mapping. -/
structure VResult where
  service : String
  status : String
  message : String
  details : List (String × String)
deriving Repr, DecidableEq

/-- Outcome of one `requests.get` call: a response arrived, the request timed
out (`requests.exceptions.Timeout`), or another request-level exception was
raised (`requests.exceptions.RequestException`, carrying `str(e)`). -/
inductive Net (ρ : Type)
  | response (r : ρ)
  | timeout
  | reqError (msg : String)
deriving Repr, DecidableEq

/-- JSON body of a CoinGecko `/ping` 200 response, as read by the script:
only `data.get('gecko_says', 'OK')` is consulted. -/
structure CGPayload where
  geckoSays : Option String
deriving Repr, DecidableEq

/-- A CoinGecko HTTP response: status code, the result of `response.json()`
(`Except.error` models a parse failure, raised as a `RequestException`
subclass by the `requests` library and caught by the outer handler), the two
optional rate-limit headers, and `response.text`. -/
structure CGResponse where
  statusCode : Nat
  payload : Except String CGPayload
  rlLimit : Option String
  rlRemaining : Option String
  text : String
deriving Repr, DecidableEq

/-- JSON body of an Etherscan 200 response, as read by the script:
`data.get('status')`, `data.get('message', ...)`, and
`data['result']['ethusd']` when present. -/
structure ESPayload where
  status : Option String
  message : Option String
  ethusd : Option String
deriving Repr, DecidableEq

/-- An Etherscan HTTP response: status code and the `response.json()` result
(consulted only on HTTP 200). -/
structure ESResponse where
  statusCode : Nat
  payload : Except String ESPayload
deriving Repr, DecidableEq

/-- JSON body of a GitHub `/rate_limit` 200 response, as read by the script:
`data.get('rate', {}).get('limit', 0)` and friends, so absent fields are 0. -/
structure GHPayload where
  rateLimit : Nat
  remaining : Nat
  reset : Nat
deriving Repr, DecidableEq

/-- A GitHub HTTP response: status code and the `response.json()` result
(consulted only on HTTP 200). -/
structure GHResponse where
  statusCode : Nat
  payload : Except String GHPayload
deriving Repr, DecidableEq

/-- Python truthiness test `not api_key` on an `Optional[str]`: true for
`None` and for the empty string. -/
def falsy : Option String → Bool
  | none => true
  | some s => s.isEmpty

/-- `validate_coingecko(api_key)`: guard on a missing/empty key, then
classify the HTTP outcome of the `/ping` call.  Returns the
`(valid, result)` pair of the Python function. -/
def validate_coingecko (api_key : Option String) (net : Net CGResponse) :
    Bool × VResult :=
  let result : VResult := ⟨"CoinGecko", "unknown", "", []⟩
  if falsy api_key then
    (false, { result with status := "not_configured",
                          message := "API key not configured" })
  else
    match net with
    | .response r =>
      if r.statusCode == 200 then
        match r.payload with
        | .ok data =>
          let d := [("response", data.geckoSays.getD "OK")]
          let d := d ++ (match r.rlLimit with
                         | some v => [("rate_limit", v)]
                         | none => [])
          let d := d ++ (match r.rlRemaining with
                         | some v => [("rate_remaining", v)]
                         | none => [])
          (true, { result with status := "valid",
                               message := "API key is valid", details := d })
        | .error e =>
          (false, { result with status := "error",
                                message := "Request failed: " ++ e })
      else if r.statusCode == 401 then
        (false, { result with status := "invalid",
                              message := "API key is invalid or expired" })
      else if r.statusCode == 429 then
        (false, { result with status := "rate_limited",
                              message := "Rate limit exceeded" })
      else
        (false, { result with status := "error",
                              message := "HTTP " ++ toString r.statusCode
                                         ++ ": " ++ r.text.take 100 })
    | .timeout =>
      (false, { result with status := "timeout",
                            message := "Request timed out" })
    | .reqError e =>
      (false, { result with status := "error",
                            message := "Request failed: " ++ e })

/-- `validate_etherscan(api_key)`: guard on a missing/empty key, then
classify the HTTP outcome of the ETH-price call.  On HTTP 200 the JSON
`status` field decides validity; any other HTTP code is `error`. -/
def validate_etherscan (api_key : Option String) (net : Net ESResponse) :
    Bool × VResult :=
  let result : VResult := ⟨"Etherscan", "unknown", "", []⟩
  if falsy api_key then
    (false, { result with status := "not_configured",
                          message := "API key not configured" })
  else
    match net with
    | .response r =>
      if r.statusCode == 200 then
        match r.payload with
        | .ok data =>
          if data.status == some "1" then
            let d := match data.ethusd with
                     | some p => [("eth_price", "$" ++ p)]
                     | none => []
            (true, { result with status := "valid",
                                 message := "API key is valid", details := d })
          else
            (false, { result with status := "invalid",
                                  message :=
                                    data.message.getD
                                      "API key validation failed" })
        | .error e =>
          (false, { result with status := "error",
                                message := "Request failed: " ++ e })
      else
        (false, { result with status := "error",
                              message := "HTTP " ++ toString r.statusCode })
    | .timeout =>
      (false, { result with status := "timeout",
                            message := "Request timed out" })
    | .reqError e =>
      (false, { result with status := "error",
                            message := "Request failed: " ++ e })

/-- `validate_github(token)`: guard on a missing/empty token, then classify
the HTTP outcome of the `/rate_limit` call.  `fmtReset` stands for the
external `datetime.fromtimestamp(...).strftime(...)` rendering of the reset
timestamp. -/
def validate_github (token : Option String) (fmtReset : Nat → String)
    (net : Net GHResponse) : Bool × VResult :=
  let result : VResult := ⟨"GitHub", "unknown", "", []⟩
  if falsy token then
    (false, { result with status := "not_configured",
                          message := "Token not configured" })
  else
    match net with
    | .response r =>
      if r.statusCode == 200 then
        match r.payload with
        | .ok data =>
          let d := [("rate_limit", toString data.rateLimit
                                   ++ " requests/hour"),
                    ("remaining", toString data.remaining
                                  ++ " requests remaining")]
          let d := if data.reset ≠ 0 then
                     d ++ [("reset_time", fmtReset data.reset)]
                   else d
          let msg := "Token is valid"
          let msg := if data.rateLimit < 5000 then
                       msg ++ " (Limited to " ++ toString data.rateLimit
                           ++ " req/hour - consider using token with higher limits)"
                     else msg
          (true, { result with status := "valid", message := msg,
                               details := d })
        | .error e =>
          (false, { result with status := "error",
                                message := "Request failed: " ++ e })
      else if r.statusCode == 401 then
        (false, { result with status := "invalid",
                              message := "Token is invalid or expired" })
      else
        (false, { result with status := "error",
                              message := "HTTP " ++ toString r.statusCode })
    | .timeout =>
      (false, { result with status := "timeout",
                            message := "Request timed out" })
    | .reqError e =>
      (false, { result with status := "error",
                            message := "Request failed: " ++ e })

/-- Python-dict assignment `env_vars[key] = value`: overwrite the value if
the key is present, otherwise append at the end (insertion order kept). -/
def envInsert (env : List (String × String)) (k v : String) :
    List (String × String) :=
  if env.any (fun p => p.1 == k) then
    env.map (fun p => if p.1 == k then (k, v) else p)
  else env ++ [(k, v)]

/-- Python `str.strip()`: drop leading and trailing whitespace. -/
def pyStrip (s : String) : String :=
  ⟨((s.data.dropWhile Char.isWhitespace).reverse.dropWhile
      Char.isWhitespace).reverse⟩

/-- Python `line.startswith('#')`. -/
def startsWithHash (s : String) : Bool :=
  match s.data with
  | [] => false
  | c :: _ => c == '#'

/-- Python `'=' in line`. -/
def containsEq (s : String) : Bool := s.data.contains '='

/-- Python `line.split('=', 1)` when `'='` occurs in `line`: the part before
the first `'='` and everything after it. -/
def splitFirstEq (s : String) : String × String :=
  (⟨s.data.takeWhile (fun c => c != '=')⟩,
   ⟨(s.data.dropWhile (fun c => c != '=')).drop 1⟩)

/-- One iteration of the `load_env_file` loop: strip the line; if it is
non-empty, not a comment, and contains `=`, split on the first `=` and store
the stripped key/value pair. -/
def parseEnvLine (env : List (String × String)) (rawLine : String) :
    List (String × String) :=
  let line := pyStrip rawLine
  if (line != "") && !(startsWithHash line) && containsEq line then
    let kv := splitFirstEq line
    envInsert env (pyStrip kv.1) (pyStrip kv.2)
  else env

/-- `load_env_file(env_path)`: an empty mapping when the file does not
exist, otherwise the fold of `parseEnvLine` over the file's lines. -/
def load_env_file (fileExists : Bool) (lines : List String) :
    List (String × String) :=
  if fileExists then lines.foldl parseEnvLine [] else []

/-- `env_vars.get(key)`: `None` when the key is absent. -/
def envGet (env : List (String × String)) (k : String) : Option String :=
  (env.find? (fun p => p.1 == k)).map (fun p => p.2)

/-- The `results` dictionary built by `main` (lines 310–336): one entry per
service, keyed `'coingecko'`, `'etherscan'`, `'github'`, each holding the
`(valid, result)` pair of its validator applied to the key looked up in the
loaded configuration. -/
def runValidation (env : List (String × String)) (fmtReset : Nat → String)
    (cg : Net CGResponse) (es : Net ESResponse) (gh : Net GHResponse) :
    List (String × (Bool × VResult)) :=
  [("coingecko", validate_coingecko (envGet env "COINGECKO_API_KEY") cg),
   ("etherscan", validate_etherscan (envGet env "ETHERSCAN_API_KEY") es),
   ("github", validate_github (envGet env "GITHUB_TOKEN") fmtReset gh)]

/-- `valid_count = sum(1 for v, _ in results.values() if v)`. -/
def validCount (results : List (String × (Bool × VResult))) : Nat :=
  (results.filter (fun p => p.2.1)).length

/-- A Python subscript key as it occurs in `main`: an integer or a string. -/
inductive PyKey
  | pint (n : Int)
  | pstr (s : String)
deriving Repr, DecidableEq

/-- A value stored in a result dict: a string field or the nested `details`
dict. -/
inductive PyVal
  | pstr (s : String)
  | pdict (d : List (String × String))
deriving Repr, DecidableEq

/-- The result dict as the Python dict it is: its keys are exactly the four
string keys assigned at construction (`service`, `status`, `message`,
`details`). -/
def vresultItems (r : VResult) : List (PyKey × PyVal) :=
  [(.pstr "service", .pstr r.service), (.pstr "status", .pstr r.status),
   (.pstr "message", .pstr r.message), (.pstr "details", .pdict r.details)]

/-- Python subscript `r[k]` on a result dict: the value when the key is
present, `KeyError` otherwise — in particular for every integer key, since
all four keys are strings. -/
def vresultGetItem (r : VResult) (k : PyKey) : Except String PyVal :=
  match (vresultItems r).find? (fun p => p.1 == k) with
  | some p => .ok p.2
  | none =>
    .error ("KeyError: " ++ (match k with
      | .pint n => toString n
      | .pstr s => s))

/-- Python subscript on a value taken out of a result dict: a nested dict
yields its entry or `KeyError`; a string subscripted with a string raises
`TypeError`. -/
def pyValGetItem (v : PyVal) (k : String) : Except String PyVal :=
  match v with
  | .pdict d =>
    match d.find? (fun p => p.1 == k) with
    | some p => .ok (.pstr p.2)
    | none => .error ("KeyError: " ++ k)
  | .pstr _ => .error "TypeError: string indices must be integers"

/-- The per-entry test of line 343, exactly as written in the source:
`r[1]['status'] != 'not_configured'`, where the `for _, r in
results.values()` unpacking has bound `r` to the result DICT (not the
`(valid, result)` tuple), so `r[1]` subscripts a string-keyed dict with the
integer 1. -/
def line343Test (r : VResult) : Except String Bool :=
  match vresultGetItem r (.pint 1) with
  | .error e => .error e
  | .ok v =>
    match pyValGetItem v "status" with
    | .error e => .error e
    | .ok w => .ok (w != .pstr "not_configured")

/-- Line 343: `configured_count = sum(1 for _, r in results.values() if
r[1]['status'] != 'not_configured')`, the generator evaluated left to right
with the first raised exception propagating out of `sum`. -/
def configured_count_343 (results : List (String × (Bool × VResult))) :
    Except String Nat :=
  results.foldl
    (fun acc p =>
      match acc with
      | .error e => .error e
      | .ok n =>
        match line343Test p.2.2 with
        | .error e => .error e
        | .ok b => .ok (if b then n + 1 else n))
    (.ok 0)

/-- How a run of `main` ends (interrupts aside): the fatal early
`sys.exit(1)` printed as an error before any service is checked; a crash —
an exception raised after the per-service results were produced and
printed, reaching the top-level `except Exception` handler, which prints
`Unexpected error: ...` and exits 1 without writing the report; or normal
completion with an exit code. -/
inductive MainOutcome
  | fatal (msg : String)
  | crashed (results : List (String × (Bool × VResult))) (exc : String)
  | completed (results : List (String × (Bool × VResult))) (code : Nat)
deriving Repr, DecidableEq

/-- `main` (lines 285–374) seen from the environment: load the configuration
file; if the loaded mapping is empty, exit fatally with `Failed to load .env
file`; otherwise validate the three services, then evaluate the summary's
`configured_count` (line 343) — if that raises, the run crashes into the
top-level handler; only if it returned would the summary, the report write
and the exit-code selection of lines 345–374 run, exiting 0 exactly when
`valid_count == configured_count and configured_count > 0`. -/
def mainRun (fileExists : Bool) (lines : List String)
    (fmtReset : Nat → String) (cg : Net CGResponse) (es : Net ESResponse)
    (gh : Net GHResponse) : MainOutcome :=
  let env := load_env_file fileExists lines
  if env.isEmpty then .fatal "Failed to load .env file"
  else
    let results := runValidation env fmtReset cg es gh
    match configured_count_343 results with
    | .error e => .crashed results e
    | .ok configured =>
      .completed results
        (if validCount results == configured && configured > 0 then 0 else 1)

/-- The process exit status produced by each way `main` can end: the early
fatal path calls `sys.exit(1)`, the top-level exception handler exits 1,
and a completed run exits with the chosen code. -/
def processExit : MainOutcome → Nat
  | .fatal _ => 1
  | .crashed _ _ => 1
  | .completed _ code => code

/-- The fragment of JSON needed by the validation report. -/
inductive Json
  | str (s : String)
  | bool (b : Bool)
  | obj (fields : List (String × Json))
deriving Repr

/-- The JSON object stored under one service name in the report:
`{'valid': ..., 'status': ..., 'message': ..., 'details': {...}}`. -/
def entryJson (valid : Bool) (r : VResult) : Json :=
  .obj [("valid", .bool valid),
        ("status", .str r.status),
        ("message", .str r.message),
        ("details", .obj (r.details.map (fun p => (p.1, Json.str p.2))))]

/-- Python-dict assignment on a JSON object's field list. -/
def objInsert (fields : List (String × Json)) (k : String) (v : Json) :
    List (String × Json) :=
  if fields.any (fun p => p.1 == k) then
    fields.map (fun p => if p.1 == k then (k, v) else p)
  else fields ++ [(k, v)]

/-- The loop of `generate_report`: `report['results'][service] = {...}` for
each `(service, (valid, result))` in iteration order. -/
def buildResults (results : List (String × (Bool × VResult))) :
    List (String × Json) :=
  results.foldl (fun acc p => objInsert acc p.1 (entryJson p.2.1 p.2.2)) []

/-- `generate_report(results)`: the JSON value serialized by `json.dumps` —
`{'timestamp': ..., 'results': {service: {valid, status, message,
details}}}`.  `timestamp` stands for `datetime.now().isoformat()`. -/
def generate_report (timestamp : String)
    (results : List (String × (Bool × VResult))) : Json :=
  .obj [("timestamp", .str timestamp),
        ("results", .obj (buildResults results))]

/-- Field lookup on a parsed JSON value. -/
def jsonLookup (j : Json) (k : String) : Option Json :=
  match j with
  | .obj fields => (fields.find? (fun p => p.1 == k)).map (fun p => p.2)
  | _ => none

/-- Reading a reloaded report back: the entry recorded for `service` inside
the report's `results` object. -/
def reportEntry (report : Json) (service : String) : Option Json :=
  (jsonLookup report "results").bind (fun r => jsonLookup r service)

/-- The status taxonomy of the spec's data model. -/
def allowedStatuses : List String :=
  ["valid", "invalid", "not_configured", "rate_limited", "timeout", "error"]

/-! ## Helper lemmas about the three validators -/

theorem cg_status_mem (k : Option String) (n : Net CGResponse) :
    (validate_coingecko k n).2.status ∈ allowedStatuses := by
  by_cases hk : falsy k <;>
    rcases n with ⟨code, payload, rl, rr, text⟩ | _ | e <;>
    (try rcases payload with data | e) <;>
    (simp [validate_coingecko, allowedStatuses, hk]; try (split_ifs <;> simp))

theorem es_status_mem (k : Option String) (n : Net ESResponse) :
    (validate_etherscan k n).2.status ∈ allowedStatuses := by
  by_cases hk : falsy k <;>
    rcases n with ⟨code, payload⟩ | _ | e <;>
    (try rcases payload with data | e) <;>
    (simp [validate_etherscan, allowedStatuses, hk]; try (split_ifs <;> simp))

theorem gh_status_mem (k : Option String) (fmt : Nat → String)
    (n : Net GHResponse) :
    (validate_github k fmt n).2.status ∈ allowedStatuses := by
  by_cases hk : falsy k <;>
    rcases n with ⟨code, payload⟩ | _ | e <;>
    (try rcases payload with data | e) <;>
    (simp [validate_github, allowedStatuses, hk]; try (split_ifs <;> simp))

theorem status_ne_unknown {s : String} (h : s ∈ allowedStatuses) :
    s ≠ "unknown" := by
  intro he
  subst he
  revert h
  decide

theorem cg_valid_eq (k : Option String) (n : Net CGResponse) :
    (validate_coingecko k n).1 = ((validate_coingecko k n).2.status == "valid") := by
  by_cases hk : falsy k <;>
    rcases n with ⟨code, payload, rl, rr, text⟩ | _ | e <;>
    (try rcases payload with data | e) <;>
    (simp [validate_coingecko, hk]; try (split_ifs <;> simp))

theorem es_valid_eq (k : Option String) (n : Net ESResponse) :
    (validate_etherscan k n).1 = ((validate_etherscan k n).2.status == "valid") := by
  by_cases hk : falsy k <;>
    rcases n with ⟨code, payload⟩ | _ | e <;>
    (try rcases payload with data | e) <;>
    (simp [validate_etherscan, hk]; try (split_ifs <;> simp))

theorem gh_valid_eq (k : Option String) (fmt : Nat → String) (n : Net GHResponse) :
    (validate_github k fmt n).1 = ((validate_github k fmt n).2.status == "valid") := by
  by_cases hk : falsy k <;>
    rcases n with ⟨code, payload⟩ | _ | e <;>
    (try rcases payload with data | e) <;>
    (simp [validate_github, hk]; try (split_ifs <;> simp))

theorem runValidation_valid_eq (env : List (String × String))
    (fmt : Nat → String) (cg : Net CGResponse) (es : Net ESResponse)
    (gh : Net GHResponse) :
    ∀ p ∈ runValidation env fmt cg es gh, p.2.1 = (p.2.2.status == "valid") := by
  intro p hp
  simp only [runValidation, List.mem_cons, List.not_mem_nil, or_false] at hp
  rcases hp with h | h | h <;> subst h
  · exact cg_valid_eq _ _
  · exact es_valid_eq _ _
  · exact gh_valid_eq _ _ _

/-! ## The line-343 crash -/

theorem line343Test_error (r : VResult) :
    line343Test r = .error "KeyError: 1" := rfl

theorem configured_count_343_run (env : List (String × String))
    (fmt : Nat → String) (cg : Net CGResponse) (es : Net ESResponse)
    (gh : Net GHResponse) :
    configured_count_343 (runValidation env fmt cg es gh) =
      .error "KeyError: 1" := rfl

/-! ## Association-list lemmas for the JSON report -/

theorem find?_keyUpdate_ne (fields : List (String × Json)) (k s : String)
    (v : Json) (hne : k ≠ s) :
    (fields.map (fun p => if p.1 == k then (k, v) else p)).find?
        (fun p => p.1 == s) =
      fields.find? (fun p => p.1 == s) := by
  induction fields with
  | nil => rfl
  | cons a t ih =>
    rw [List.map_cons]
    by_cases ha : a.1 = k
    · have hupd : (if (a.1 == k) then ((k, v) : String × Json) else a) = (k, v) := by
        simp [ha]
      rw [hupd, List.find?_cons_of_neg _ (by simp [hne]),
        List.find?_cons_of_neg _ (by simp [ha, hne]), ih]
    · have hupd : (if (a.1 == k) then ((k, v) : String × Json) else a) = a := by
        simp [ha]
      rw [hupd]
      by_cases hs : a.1 = s
      · rw [List.find?_cons_of_pos _ (by simp [hs]),
          List.find?_cons_of_pos _ (by simp [hs])]
      · rw [List.find?_cons_of_neg _ (by simp [hs]),
          List.find?_cons_of_neg _ (by simp [hs]), ih]

theorem find?_objInsert_ne (fields : List (String × Json)) (k s : String)
    (v : Json) (hne : k ≠ s) :
    (objInsert fields k v).find? (fun p => p.1 == s) =
      fields.find? (fun p => p.1 == s) := by
  unfold objInsert
  split_ifs with hany
  · exact find?_keyUpdate_ne fields k s v hne
  · rw [List.find?_append]
    have h1 : List.find? (fun p => p.1 == s) [(k, v)] = none := by
      rw [List.find?_cons_of_neg _ (by simp [hne])]
      rfl
    rw [h1, Option.or_none]

theorem objInsert_keys_ne (fields : List (String × Json)) (k s : String)
    (v : Json) (hk : k ≠ s) (h : ∀ q ∈ fields, q.1 ≠ s) :
    ∀ q ∈ objInsert fields k v, q.1 ≠ s := by
  unfold objInsert
  split_ifs with hany
  · intro q hq
    rw [List.mem_map] at hq
    obtain ⟨a, ha, hqa⟩ := hq
    by_cases h1 : a.1 = k
    · have : (a.1 == k) = true := by simp [h1]
      rw [← hqa, this]
      simpa using hk
    · have : (a.1 == k) = false := by simp [h1]
      rw [← hqa, this]
      simpa using h a ha
  · intro q hq
    rw [List.mem_append] at hq
    rcases hq with hq | hq
    · exact h q hq
    · simp only [List.mem_singleton] at hq
      subst hq
      exact hk

theorem find?_objInsert_self (fields : List (String × Json)) (s : String)
    (v : Json) (h : ∀ q ∈ fields, q.1 ≠ s) :
    (objInsert fields s v).find? (fun p => p.1 == s) = some (s, v) := by
  unfold objInsert
  have hany : (fields.any fun p => p.1 == s) = false := by
    rw [List.any_eq_false]
    intro q hq
    simp [h q hq]
  rw [hany]
  simp only [Bool.false_eq_true, if_false]
  have hnone : List.find? (fun p => p.1 == s) fields = none := by
    rw [List.find?_eq_none]
    intro x hx
    simp [h x hx]
  rw [List.find?_append, hnone, Option.none_or,
    List.find?_cons_of_pos _ (by simp)]

theorem foldl_objInsert_preserve (results : List (String × (Bool × VResult)))
    (acc : List (String × Json)) (s : String) (t : Json)
    (hnotin : s ∉ results.map Prod.fst)
    (hfound : acc.find? (fun p => p.1 == s) = some (s, t)) :
    ((results.foldl (fun acc p => objInsert acc p.1 (entryJson p.2.1 p.2.2))
        acc).find? (fun p => p.1 == s)) = some (s, t) := by
  induction results generalizing acc with
  | nil => simpa using hfound
  | cons a rest ih =>
    simp only [List.map_cons, List.mem_cons, not_or] at hnotin
    simp only [List.foldl_cons]
    apply ih _ hnotin.2
    rw [find?_objInsert_ne _ _ _ _ (fun he => hnotin.1 he.symm)]
    exact hfound

theorem foldl_objInsert_find? (results : List (String × (Bool × VResult)))
    (acc : List (String × Json)) (s : String) (v : Bool) (r : VResult)
    (hnd : (results.map Prod.fst).Nodup) (hmem : (s, (v, r)) ∈ results)
    (hacc : ∀ q ∈ acc, q.1 ≠ s) :
    ((results.foldl (fun acc p => objInsert acc p.1 (entryJson p.2.1 p.2.2))
        acc).find? (fun p => p.1 == s)) = some (s, entryJson v r) := by
  induction results generalizing acc with
  | nil => cases hmem
  | cons a rest ih =>
    simp only [List.map_cons, List.nodup_cons] at hnd
    simp only [List.foldl_cons]
    rcases List.mem_cons.mp hmem with heq | hmem'
    · subst heq
      exact foldl_objInsert_preserve rest _ s _ hnd.1
        (find?_objInsert_self acc s _ hacc)
    · have hsrest : s ∈ rest.map Prod.fst :=
        List.mem_map.mpr ⟨(s, (v, r)), hmem', rfl⟩
      have hane : a.1 ≠ s := fun he => hnd.1 (he ▸ hsrest)
      exact ih _ hnd.2 hmem' (objInsert_keys_ne acc a.1 s _ hane hacc)

/-! ## The claims -/

/-- C2: for a credential that is absent or empty in the loaded
configuration, each validator reports `not_configured`, and its whole result
does not depend on the HTTP world at all — the network is never consulted
(the returned pair is the same for any two outcomes). -/
theorem C2_not_configured (k : Option String) (h : falsy k = true)
    (fmt fmt' : Nat → String) (ncg ncg' : Net CGResponse)
    (nes nes' : Net ESResponse) (ngh ngh' : Net GHResponse) :
    ((validate_coingecko k ncg).2.status = "not_configured" ∧
      validate_coingecko k ncg = validate_coingecko k ncg') ∧
    ((validate_etherscan k nes).2.status = "not_configured" ∧
      validate_etherscan k nes = validate_etherscan k nes') ∧
    ((validate_github k fmt ngh).2.status = "not_configured" ∧
      validate_github k fmt ngh = validate_github k fmt' ngh') := by
  simp [validate_coingecko, validate_etherscan, validate_github, h]

/-- Witness for C2: the empty-string credential is falsy, and the CoinGecko
validator reports `not_configured` on it. -/
theorem C2_not_configured_witness :
    falsy (some "") = true ∧
    (validate_coingecko (some "") Net.timeout).2.status = "not_configured" :=
  ⟨by decide,
    (C2_not_configured (some "") (by decide) (fun _ => "") (fun _ => "x")
      Net.timeout (Net.reqError "boom") Net.timeout (Net.reqError "boom")
      Net.timeout (Net.reqError "boom")).1.1⟩

/-- C3: whatever the credential and the HTTP outcome, every validator
returns a status drawn from the six-value taxonomy, and the `unknown`
placeholder the result dictionary starts from never escapes. -/
theorem C3_status_taxonomy (k : Option String) (fmt : Nat → String)
    (ncg : Net CGResponse) (nes : Net ESResponse) (ngh : Net GHResponse) :
    ((validate_coingecko k ncg).2.status ∈ allowedStatuses ∧
      (validate_coingecko k ncg).2.status ≠ "unknown") ∧
    ((validate_etherscan k nes).2.status ∈ allowedStatuses ∧
      (validate_etherscan k nes).2.status ≠ "unknown") ∧
    ((validate_github k fmt ngh).2.status ∈ allowedStatuses ∧
      (validate_github k fmt ngh).2.status ≠ "unknown") :=
  ⟨⟨cg_status_mem k ncg, status_ne_unknown (cg_status_mem k ncg)⟩,
    ⟨es_status_mem k nes, status_ne_unknown (es_status_mem k nes)⟩,
    ⟨gh_status_mem k fmt ngh, status_ne_unknown (gh_status_mem k fmt ngh)⟩⟩

/-- C4: with a configured credential, HTTP 401 yields status `invalid` for
CoinGecko and GitHub (auth failure signalled by status code), and an
Etherscan HTTP 200 whose JSON `status` field differs from `'1'` also yields
status `invalid`. -/
theorem C4_auth_failure (k : Option String) (hk : falsy k = false)
    (cgr : CGResponse) (hcg : cgr.statusCode = 401)
    (ghr : GHResponse) (hgh : ghr.statusCode = 401) (fmt : Nat → String)
    (esr : ESResponse) (esp : ESPayload) (hes : esr.statusCode = 200)
    (hesp : esr.payload = .ok esp) (hst : esp.status ≠ some "1") :
    (validate_coingecko k (.response cgr)).2.status = "invalid" ∧
    (validate_github k fmt (.response ghr)).2.status = "invalid" ∧
    (validate_etherscan k (.response esr)).2.status = "invalid" := by
  refine ⟨?_, ?_, ?_⟩
  · simp [validate_coingecko, hk, hcg]
  · simp [validate_github, hk, hgh]
  · simp [validate_etherscan, hk, hes, hesp, hst]

/-- Witness for C4: a configured key, 401 responses for CoinGecko/GitHub,
and an Etherscan 200 whose payload carries `status = '0'`. -/
theorem C4_auth_failure_witness :
    falsy (some "k") = false ∧
    (validate_coingecko (some "k")
        (.response ⟨401, Except.error "", none, none, ""⟩)).2.status = "invalid" ∧
    (validate_github (some "k") (fun _ => "")
        (.response ⟨401, Except.error ""⟩)).2.status = "invalid" ∧
    (validate_etherscan (some "k")
        (.response ⟨200, Except.ok ⟨some "0", some "NOTOK", none⟩⟩)).2.status =
      "invalid" := by
  refine ⟨by decide, ?_⟩
  have h := C4_auth_failure (some "k") (by decide)
    ⟨401, Except.error "", none, none, ""⟩ rfl ⟨401, Except.error ""⟩ rfl
    (fun _ => "") ⟨200, Except.ok ⟨some "0", some "NOTOK", none⟩⟩
    ⟨some "0", some "NOTOK", none⟩ rfl rfl (by decide)
  exact ⟨h.1, h.2.1, h.2.2⟩

/-- C5: with a configured credential, a request timeout is mapped by every
validator to the terminal status `timeout`, and a request-level exception to
the terminal status `error`; the validators are total functions of the HTTP
outcome, so no exception escapes a check. -/
theorem C5_timeout (k : Option String) (hk : falsy k = false)
    (fmt : Nat → String) (e : String) :
    ((validate_coingecko k Net.timeout).2.status = "timeout" ∧
      (validate_etherscan k Net.timeout).2.status = "timeout" ∧
      (validate_github k fmt Net.timeout).2.status = "timeout") ∧
    ((validate_coingecko k (.reqError e)).2.status = "error" ∧
      (validate_etherscan k (.reqError e)).2.status = "error" ∧
      (validate_github k fmt (.reqError e)).2.status = "error") := by
  refine ⟨⟨?_, ?_, ?_⟩, ⟨?_, ?_, ?_⟩⟩ <;>
    simp [validate_coingecko, validate_etherscan, validate_github, hk]

/-- Witness for C5: a configured key times out on all three services. -/
theorem C5_timeout_witness :
    falsy (some "k") = false ∧
    (validate_coingecko (some "k") Net.timeout).2.status = "timeout" ∧
    (validate_etherscan (some "k") Net.timeout).2.status = "timeout" ∧
    (validate_github (some "k") (fun _ => "") Net.timeout).2.status =
      "timeout" := by
  refine ⟨by decide, ?_⟩
  have h := C5_timeout (some "k") (by decide) (fun _ => "") "conn reset"
  exact ⟨h.1.1, h.1.2.1, h.1.2.2⟩

/-- C9: every validator's boolean flag equals the test `status == "valid"`
on the result it returns, so the `valid` and `status` fields of every entry
`main` stores in `results` (and hence in the written report) agree. -/
theorem C9_valid_flag_consistent (k : Option String) (fmt : Nat → String)
    (ncg : Net CGResponse) (nes : Net ESResponse) (ngh : Net GHResponse)
    (env : List (String × String)) :
    ((validate_coingecko k ncg).1 =
        ((validate_coingecko k ncg).2.status == "valid")) ∧
    ((validate_etherscan k nes).1 =
        ((validate_etherscan k nes).2.status == "valid")) ∧
    ((validate_github k fmt ngh).1 =
        ((validate_github k fmt ngh).2.status == "valid")) ∧
    (∀ p ∈ runValidation env fmt ncg nes ngh,
        p.2.1 = (p.2.2.status == "valid")) :=
  ⟨cg_valid_eq k ncg, es_valid_eq k nes, gh_valid_eq k fmt ngh,
    runValidation_valid_eq env fmt ncg nes ngh⟩

/-- C10: a 429 response makes CoinGecko report `rate_limited`, but makes
Etherscan and GitHub report `error`; indeed no credential and no HTTP
outcome whatsoever can make the Etherscan or GitHub validator return
`rate_limited`. -/
theorem C10_rate_limited_only_coingecko (k : Option String)
    (hk : falsy k = false)
    (cgr : CGResponse) (hcg : cgr.statusCode = 429)
    (esr : ESResponse) (hes : esr.statusCode = 429)
    (ghr : GHResponse) (hgh : ghr.statusCode = 429) (fmt : Nat → String)
    (k' : Option String) (nes : Net ESResponse) (ngh : Net GHResponse) :
    (validate_coingecko k (.response cgr)).2.status = "rate_limited" ∧
    (validate_etherscan k (.response esr)).2.status = "error" ∧
    (validate_github k fmt (.response ghr)).2.status = "error" ∧
    (validate_etherscan k' nes).2.status ≠ "rate_limited" ∧
    (validate_github k' fmt ngh).2.status ≠ "rate_limited" := by
  refine ⟨?_, ?_, ?_, ?_, ?_⟩
  · simp [validate_coingecko, hk, hcg]
  · simp [validate_etherscan, hk, hes]
  · simp [validate_github, hk, hgh]
  · by_cases hk' : falsy k' <;>
      rcases nes with ⟨code, payload⟩ | _ | e <;>
      (try rcases payload with data | e) <;>
      (simp [validate_etherscan, hk']; try (split_ifs <;> simp))
  · by_cases hk' : falsy k' <;>
      rcases ngh with ⟨code, payload⟩ | _ | e <;>
      (try rcases payload with data | e) <;>
      (simp [validate_github, hk']; try (split_ifs <;> simp))

/-- Witness for C10: a configured key and 429 responses on all three
services. -/
theorem C10_rate_limited_witness :
    falsy (some "k") = false ∧
    (validate_coingecko (some "k")
        (.response ⟨429, Except.error "", none, none, ""⟩)).2.status =
      "rate_limited" ∧
    (validate_etherscan (some "k")
        (.response ⟨429, Except.error ""⟩)).2.status = "error" ∧
    (validate_github (some "k") (fun _ => "")
        (.response ⟨429, Except.error ""⟩)).2.status = "error" := by
  refine ⟨by decide, ?_⟩
  have h := C10_rate_limited_only_coingecko (some "k") (by decide)
    ⟨429, Except.error "", none, none, ""⟩ rfl ⟨429, Except.error ""⟩ rfl
    ⟨429, Except.error ""⟩ rfl (fun _ => "") none Net.timeout Net.timeout
  exact ⟨h.1, h.2.1, h.2.2.1⟩

/-- C1: the claim is right about the intent but the code never reaches the
exit-code selection — the exit code of every run is 1 and exit code 0 is
unreachable, because line 343 (`r[1]['status']` with `r` already the result
dict) raises `KeyError: 1` on every run with a non-empty configuration,
sending `main` into the top-level handler; the concrete run below, whose
one configured service validates successfully, still exits 1. -/
theorem C1_exit_code_code_bug (fileExists : Bool) (lines : List String)
    (fmt : Nat → String) (cg : Net CGResponse) (es : Net ESResponse)
    (gh : Net GHResponse) :
    processExit (mainRun fileExists lines fmt cg es gh) = 1 ∧
    (∀ results code,
      mainRun fileExists lines fmt cg es gh ≠ .completed results code) ∧
    (validate_coingecko (some "k")
        (.response ⟨200, Except.ok ⟨some "(V3) To the Moon!"⟩, none, none,
          ""⟩)).2.status = "valid" ∧
    mainRun true ["COINGECKO_API_KEY=k"] (fun _ => "")
        (.response ⟨200, Except.ok ⟨some "(V3) To the Moon!"⟩, none, none,
          ""⟩) Net.timeout Net.timeout =
      .crashed
        (runValidation [("COINGECKO_API_KEY", "k")] (fun _ => "")
          (.response ⟨200, Except.ok ⟨some "(V3) To the Moon!"⟩, none, none,
            ""⟩) Net.timeout Net.timeout)
        "KeyError: 1" := by
  refine ⟨?_, ?_, by decide, by decide⟩
  all_goals
    unfold mainRun
    cases henv : load_env_file fileExists lines with
    | nil => simp [henv, processExit]
    | cons a t =>
      simp [henv, configured_count_343_run, processExit]

theorem jsonLookup_obj (fields : List (String × Json)) (k : String) :
    jsonLookup (.obj fields) k =
      (fields.find? (fun p => p.1 == k)).map (fun p => p.2) := rfl

/-- C6: the report value `generate_report` serializes (and `main` writes to
disk) is faithful — for any in-memory results mapping with distinct service
names, looking a service up in the reloaded report returns exactly the
`{valid, status, message, details}` record held in memory for it, so the
service-to-status mapping round-trips through the JSON report. -/
theorem C6_report_roundtrip (ts : String)
    (results : List (String × (Bool × VResult)))
    (hnd : (results.map Prod.fst).Nodup) (service : String) (v : Bool)
    (r : VResult) (hmem : (service, (v, r)) ∈ results) :
    reportEntry (generate_report ts results) service =
      some (entryJson v r) := by
  unfold reportEntry generate_report
  rw [jsonLookup_obj,
    List.find?_cons_of_neg _ (by simp), List.find?_cons_of_pos _ (by simp)]
  simp only [Option.map_some', Option.some_bind]
  rw [jsonLookup_obj]
  unfold buildResults
  rw [foldl_objInsert_find? results [] service v r hnd hmem
    (fun q hq => absurd hq (List.not_mem_nil q))]
  rfl

/-- Witness for C6: a one-service results mapping round-trips. -/
theorem C6_report_roundtrip_witness :
    reportEntry
        (generate_report "2026-10-12T00:00:00"
          [("coingecko",
            (false, ⟨"CoinGecko", "timeout", "Request timed out", []⟩))])
        "coingecko" =
      some (entryJson false ⟨"CoinGecko", "timeout", "Request timed out", []⟩) :=
  C6_report_roundtrip "2026-10-12T00:00:00" _ (by simp) "coingecko" false _
    (by simp)

/-- C7 fails as stated: fatal termination is not limited to a *missing*
configuration file — a configuration file that exists but contains no
`KEY=VALUE` line (here one comment line) also loads an empty mapping and
aborts fatally with `Failed to load .env file`, before any per-service
result is produced. -/
theorem C7_fatal_counterexample :
    load_env_file true ["# api keys go here"] = [] ∧
    mainRun true ["# api keys go here"] (fun _ => "")
        Net.timeout Net.timeout Net.timeout =
      .fatal "Failed to load .env file" := by
  constructor
  · decide
  · decide

/-- C7 (amended): termination with a printed error and NO per-service
results happens exactly when the loaded configuration is empty — because
the file is missing or because it contains no `KEY=VALUE` line. On every
non-empty configuration the per-service results are produced (network
failures having been mapped to statuses by the total validators), but the
run then always falls into the claim's other fatal category — an unexpected
uncaught exception — through the unconditional `KeyError: 1` of line 343,
and never completes normally. -/
theorem C7_fatal_amended (fileExists : Bool) (lines : List String)
    (fmt : Nat → String) (cg : Net CGResponse) (es : Net ESResponse)
    (gh : Net GHResponse) :
    ((∃ msg, mainRun fileExists lines fmt cg es gh = .fatal msg) ↔
      load_env_file fileExists lines = []) ∧
    (load_env_file fileExists lines ≠ [] →
      mainRun fileExists lines fmt cg es gh =
        .crashed
          (runValidation (load_env_file fileExists lines) fmt cg es gh)
          "KeyError: 1") := by
  cases henv : load_env_file fileExists lines with
  | nil => simp [mainRun, henv]
  | cons a t => simp [mainRun, henv, configured_count_343_run]

/-- C8: the printed summary never occurs — for every configuration and
every HTTP outcome, evaluating line 343's `configured_count` over the
(always three-entry) results mapping raises `KeyError: 1` on its first
entry, because the `for _, r in results.values()` unpacking binds `r` to
the result dict and `r[1]` subscripts it with an integer; the `Valid:`
ratio of line 347 whose denominator the claim describes is unreachable. -/
theorem C8_summary_code_bug (env : List (String × String))
    (fmt : Nat → String) (cg : Net CGResponse) (es : Net ESResponse)
    (gh : Net GHResponse) :
    ((runValidation env fmt cg es gh).length = 3) ∧
    configured_count_343 (runValidation env fmt cg es gh) =
      .error "KeyError: 1" ∧
    line343Test
        (validate_coingecko (envGet env "COINGECKO_API_KEY") cg).2 =
      .error "KeyError: 1" :=
  ⟨rfl, configured_count_343_run env fmt cg es gh, line343Test_error _⟩

end ValidateKeys
